import Mathlib

/-!
Shallow embedding of the `appdirs` repository (modules `appdirs/appdirs.py`
and `dwave_appdirs/dwave_appdirs.py`) and proofs about its directory
resolution logic.

The two Python modules are near-identical: each exposes accessor functions
(`user_data_dir`, ..., `site_config_dirs`) that forward to a private
`_get_folder` routing function.  Python's dynamic features are modelled as
follows: machine state that the code reads (`sys.platform`, `sys.prefix`,
`sys.real_prefix` / `sys.base_prefix` presence, `$HOME`, environment
variables, the Windows `SHGetFolderPathW` shell query and
`GetShortPathNameW`, `os.path.normpath`) is a record `Env`; the filesystem
is the list of existing directory paths `FS`; exceptions are an explicit
`PyError` value in an `Except`; Python values that may be either a string
or a list of strings are `PyValue`.
-/

namespace Appdirs

/-- Python exceptions raised (or raisable) by the code under study. -/
inductive PyError : Type where
  | typeError : PyError
  | indexError : PyError
  | fileNotFoundError : PyError
  | fileExistsError : PyError
  | runtimeError : String → PyError
deriving DecidableEq

/-- A Python return value that is either a single string or a list of
strings (the accessors of the two modules dynamically return one or the
other). -/
inductive PyValue : Type where
  | str : String → PyValue
  | strList : List String → PyValue
deriving DecidableEq

instance {ε α : Type} [DecidableEq ε] [DecidableEq α] : DecidableEq (Except ε α) := fun a b =>
  match a, b with
  | Except.error x, Except.error y =>
      if h : x = y then Decidable.isTrue (by simp [h]) else Decidable.isFalse (by simp [h])
  | Except.error _, Except.ok _ => Decidable.isFalse (by simp)
  | Except.ok _, Except.error _ => Decidable.isFalse (by simp)
  | Except.ok x, Except.ok y =>
      if h : x = y then Decidable.isTrue (by simp [h]) else Decidable.isFalse (by simp [h])

/-- Boolean test that the second list is an initial segment of the
first.  (Executable by kernel reduction, unlike the iterator-based
`String` primitives of core Lean.) -/
def listIsInit : List Char → List Char → Bool
  | _, [] => true
  | [], _ :: _ => false
  | a :: as, b :: bs => a = b && listIsInit as bs

/-- `s.startswith(pre)` on strings. -/
def strStartsWith (s pre : String) : Bool := listIsInit s.toList pre.toList

/-- `s.endswith(suf)` on strings. -/
def strEndsWith (s suf : String) : Bool :=
  listIsInit s.toList.reverse suf.toList.reverse

/-- Drop the first `n` characters of a string. -/
def strDrop (s : String) (n : Nat) : String := String.mk (s.toList.drop n)

/-- Split a character list on a separator character, Python
`str.split(sep)` style: splitting the empty string gives `[""]`, and a
separator at either end contributes an empty piece. -/
def splitOnChar (sep : Char) : List Char → List (List Char)
  | [] => [[]]
  | c :: cs =>
    let r := splitOnChar sep cs
    if c = sep then [] :: r
    else
      match r with
      | [] => [[c]]
      | h :: t => (c :: h) :: t

/-- `s.split(sep)` for a one-character separator. -/
def strSplitOnChar (sep : Char) (s : String) : List String :=
  (splitOnChar sep s.toList).map String.mk

/-- Join string pieces with `/` between them (`'/'.join(pieces)`). -/
def joinWithSlash : List String → String
  | [] => ""
  | [x] => x
  | x :: y :: xs => x ++ "/" ++ joinWithSlash (y :: xs)

/-- The ambient interpreter / OS state read by the two modules.
`sysPfx` is `sys.prefix`, `basePfx` is `sys.base_prefix`, `hasRealPfx`
and `hasBasePfx` model `hasattr(sys, 'real_prefix')` and
`hasattr(sys, 'base_prefix')`.  `shGetFolderPathW` is the Windows shell
query by CSIDL constant and `getShortPathNameW` the short-path downgrade
(`none` models the call returning 0); `normpath` is `os.path.normpath`.
These last three are external collaborators of the code, not code of the
repository. -/
structure Env : Type where
  platform : String
  sysPfx : String
  hasRealPfx : Bool
  hasBasePfx : Bool
  basePfx : String
  home : String
  getenv : String → Option String
  shGetFolderPathW : Nat → String
  getShortPathNameW : String → Option String
  normpath : String → String

/-- The filesystem: the list of paths that currently exist (as
directories). -/
abbrev FS := List String

/-- Model of `os.path.exists` (POSIX): membership in the set of existing
paths. -/
def pathExists (fs : FS) (p : String) : Bool := decide (p ∈ fs)

/-- Model of `os.path.join` for two POSIX path components: an absolute
second component replaces the first, otherwise a single separator is
inserted unless the first component is empty or already ends in one. -/
def osPathJoin (a b : String) : String :=
  if strStartsWith b "/" then b
  else if a = "" ∨ strEndsWith a "/" then a ++ b
  else a ++ "/" ++ b

/-- `os.path.join` applied to a possibly-`None` second argument:
`os.path.join(path, None)` raises `TypeError`. -/
def osPathJoinOpt (a : String) (b : Option String) : Except PyError String :=
  match b with
  | none => Except.error PyError.typeError
  | some s => Except.ok (osPathJoin a s)

/-- Model of `os.path.expanduser` (POSIX): a leading `~` is replaced by
the home directory. -/
def expanduser (e : Env) (s : String) : String :=
  if s = "~" then e.home
  else if strStartsWith s "~/" then e.home ++ strDrop s 1
  else s

/-- Model of `x.rstrip(os.sep)` for POSIX (`os.sep` is `/`). -/
def rstripSep (s : String) : String :=
  String.mk (List.reverse (List.dropWhile (fun c => c = '/') (List.reverse s.toList)))

/-- Model of `os.getenv(key, default)`. -/
def getenvD (e : Env) (k d : String) : String := (e.getenv k).getD d

/-- The proper ancestor paths created by `os.makedirs` on the way to the
target (each `/`-separated initial segment of the path). -/
def ancestorPaths (p : String) : List String :=
  (List.range ((strSplitOnChar '/' p).length - 1)).map
    (fun i => joinWithSlash ((strSplitOnChar '/' p).take (i + 1)))

/-- Model of `os.makedirs(p)`: raises `FileExistsError` when the target
already exists, `FileNotFoundError` on the empty path, and otherwise adds
the missing ancestors and the target itself to the filesystem. -/
def makedirs (fs : FS) (p : String) : Except PyError FS :=
  if p = "" then Except.error PyError.fileNotFoundError
  else if pathExists fs p then Except.error PyError.fileExistsError
  else Except.ok ((fs ++ (ancestorPaths p).filter
      (fun q => q ≠ "" && !pathExists fs q)) ++ [p])

/-- The module-level platform flags.  In `appdirs.py` (lines 23-32) this
is the dict `system`; in `dwave_appdirs.py` (lines 26-34) the globals
`WINDOWS`, `MACOSX`, `LINUX`.  Both compute the same three booleans. -/
structure PlatFlags : Type where
  windows : Bool
  macosx : Bool
  linux : Bool
deriving DecidableEq

/-- Platform detection as performed at import time by both modules:
`win32` sets the Windows flag, `darwin` the macOS flag, and every other
value of `sys.platform` sets the Linux flag. -/
def detectPlatform (p : String) : PlatFlags :=
  if p = "win32" then PlatFlags.mk true false false
  else if p = "darwin" then PlatFlags.mk false true false
  else PlatFlags.mk false false true

/-- `_in_virtualenv_folder` (identical in both modules):
`hasattr(sys, 'real_prefix') or hasattr(sys, 'base_prefix') and
sys.base_prefix != sys.prefix` (Python `and` binds tighter than `or`). -/
def inVirtualenvFolder (e : Env) : Bool :=
  e.hasRealPfx || (e.hasBasePfx && e.basePfx != e.sysPfx)

/-- `_get_win_folder(site, roaming, app_author)` (identical in both
modules): raises `RuntimeError` when `app_author` is `None`, otherwise
queries the shell folder for the selected CSIDL constant, downgrades to a
short path when the result has characters above 255, and joins the
author name. -/
def getWinFolder (e : Env) (site roaming : Bool) (app_author : Option String) :
    Except PyError String :=
  match app_author with
  | none => Except.error (PyError.runtimeError "app_author must be provided on Windows")
  | some author =>
    let csidl : Nat := if site then 35 else if roaming then 26 else 28
    let buf := e.shGetFolderPathW csidl
    let hasHighChar := buf.toList.any (fun c => c.toNat > 255)
    let buf2 := if hasHighChar then (e.getShortPathNameW buf).getD buf else buf
    Except.ok (osPathJoin buf2 author)

/-- The OS-convention branch of `_get_folder`: base path selection by
platform flag and folder type.  These lines are textually identical in
the two modules (`appdirs.py` lines 39-80, `dwave_appdirs.py` lines
279-320), so the translation is shared.  Note the Windows dispatch tests
for the tag `user_logs` while every caller passes `user_log`, and the
Linux dispatch has no `user_log` arm, so on both platforms `user_log`
falls into the trailing `else` branch. -/
def osBasePaths (fl : PlatFlags) (e : Env) (folder_type : String)
    (app_author : Option String) (roaming : Bool) : Except PyError (List String) :=
  if fl.windows then
    if folder_type ∈ ["user_data", "user_config", "user_state"] then
      (getWinFolder e false roaming app_author).map (fun p => [e.normpath p])
    else if folder_type = "user_cache" then
      (getWinFolder e false false app_author).map (fun p => [osPathJoin (e.normpath p) "Caches"])
    else if folder_type = "user_logs" then
      (getWinFolder e false false app_author).map (fun p => [osPathJoin (e.normpath p) "Logs"])
    else
      (getWinFolder e true roaming app_author).map (fun p => [e.normpath p])
  else if fl.macosx then
    if folder_type ∈ ["user_data", "user_config", "user_state"] then
      Except.ok [expanduser e "~/Library/Application Support"]
    else if folder_type = "user_cache" then
      Except.ok [expanduser e "~/Library/Caches"]
    else if folder_type = "user_log" then
      Except.ok [expanduser e "~/Library/Logs"]
    else
      Except.ok [expanduser e "/Library/Application Support"]
  else if fl.linux then
    if folder_type = "user_data" then
      Except.ok [getenvD e "XDG_DATA_HOME" (expanduser e "~/.local/share")]
    else if folder_type = "user_config" then
      Except.ok [getenvD e "XDG_CONFIG_HOME" (expanduser e "~/.config")]
    else if folder_type = "user_state" then
      Except.ok [getenvD e "XDG_STATE_HOME" (expanduser e "~/.local/state")]
    else if folder_type = "user_cache" then
      Except.ok [getenvD e "XDG_CACHE_HOME" (expanduser e "~/.cache")]
    else if folder_type = "site_data" then
      let path := getenvD e "XDG_DATA_DIRS" "/usr/local/share:/usr/share"
      Except.ok ((strSplitOnChar ':' path).map (fun x => expanduser e (rstripSep x)))
    else
      let path := getenvD e "XDG_CONFIG_DIRS" "/etc/xdg"
      Except.ok ((strSplitOnChar ':' path).map (fun x => expanduser e (rstripSep x)))
  else
    Except.error (PyError.runtimeError ("Unsupported operating system: " ++ e.platform))

/-- Recognizer for the unsupported-platform error raised by the trailing
`else` of `_get_folder`. -/
def isUnsupportedError (e : Env) (r : Except PyError (List String)) : Bool :=
  match r with
  | Except.error (PyError.runtimeError m) =>
      decide (m = "Unsupported operating system: " ++ e.platform)
  | _ => false

end Appdirs

namespace dwave_appdirs

open Appdirs

/-- The trailing loop of `_get_folder` in `dwave_appdirs.py` (lines
322-333): for each base path, join `app_name`, join `version` when it is
not `None`, create the directory when `create` is set and the path does
not yet exist, and collect the final path.  The filesystem is threaded
through even when an exception escapes. -/
def finalize (app_name version : Option String) (create : Bool) :
    List String → FS → Except PyError (List String) × FS
  | [], fs => (Except.ok [], fs)
  | path :: rest, fs =>
    match osPathJoinOpt path app_name with
    | Except.error err => (Except.error err, fs)
    | Except.ok fp0 =>
      let final_path := match version with
        | some v => osPathJoin fp0 v
        | none => fp0
      let step : Except PyError FS :=
        if create && !pathExists fs final_path then makedirs fs final_path
        else Except.ok fs
      match step with
      | Except.error err => (Except.error err, fs)
      | Except.ok fs1 =>
        match finalize app_name version create rest fs1 with
        | (Except.error err, fs2) => (Except.error err, fs2)
        | (Except.ok l, fs2) => (Except.ok (final_path :: l), fs2)

/-- `_get_folder` of `dwave_appdirs.py` (lines 250-333), with the
platform flags passed explicitly.  The virtualenv short-circuit (lines
275-277) applies only to non-`site` categories and uses the second
`_`-separated component of the category as a subfolder of `sys.prefix`
(raising `IndexError` when the tag has no underscore, as Python list
indexing would). -/
def get_folderWith (fl : PlatFlags) (e : Env) (folder_type : String)
    (app_name app_author version : Option String)
    (roaming use_virtualenv create : Bool) (fs : FS) :
    Except PyError (List String) × FS :=
  let pathsE : Except PyError (List String) :=
    if !strStartsWith folder_type "site" && use_virtualenv && inVirtualenvFolder e then
      match (strSplitOnChar '_' folder_type).get? 1 with
      | none => Except.error PyError.indexError
      | some sub => Except.ok [osPathJoin e.sysPfx sub]
    else osBasePaths fl e folder_type app_author roaming
  match pathsE with
  | Except.error err => (Except.error err, fs)
  | Except.ok paths => finalize app_name version create paths fs

/-- `_get_folder` with the flags computed from `sys.platform` as at
module import. -/
def get_folder (e : Env) (folder_type : String)
    (app_name app_author version : Option String)
    (roaming use_virtualenv create : Bool) (fs : FS) :
    Except PyError (List String) × FS :=
  get_folderWith (detectPlatform e.platform) e folder_type
    app_name app_author version roaming use_virtualenv create fs

/-- Take element `[0]` of the resolver's list, as the five single-valued
accessors do (`IndexError` on an empty list, as in Python). -/
def firstOf (r : Except PyError (List String) × FS) : Except PyError PyValue × FS :=
  match r with
  | (Except.error err, fs) => (Except.error err, fs)
  | (Except.ok [], fs) => (Except.error PyError.indexError, fs)
  | (Except.ok (p :: _), fs) => (Except.ok (PyValue.str p), fs)

/-- Return the resolver's full list, as the two site accessors do. -/
def allOf (r : Except PyError (List String) × FS) : Except PyError PyValue × FS :=
  match r with
  | (Except.error err, fs) => (Except.error err, fs)
  | (Except.ok l, fs) => (Except.ok (PyValue.strList l), fs)

/-- `user_data_dir` (line 70): `_get_folder('user_data', ...)[0]`. -/
def user_data_dir (e : Env) (fs : FS) (app_name app_author version : Option String)
    (roaming use_virtualenv create : Bool) : Except PyError PyValue × FS :=
  firstOf (get_folder e "user_data" app_name app_author version roaming use_virtualenv create fs)

/-- `user_config_dir` (line 102): `_get_folder('user_config', ...)[0]`. -/
def user_config_dir (e : Env) (fs : FS) (app_name app_author version : Option String)
    (roaming use_virtualenv create : Bool) : Except PyError PyValue × FS :=
  firstOf (get_folder e "user_config" app_name app_author version roaming use_virtualenv create fs)

/-- `user_cache_dir` (line 130): `_get_folder('user_cache', ..., False, ...)[0]`. -/
def user_cache_dir (e : Env) (fs : FS) (app_name app_author version : Option String)
    (use_virtualenv create : Bool) : Except PyError PyValue × FS :=
  firstOf (get_folder e "user_cache" app_name app_author version false use_virtualenv create fs)

/-- `user_state_dir` (line 164): `_get_folder('user_state', ...)[0]`. -/
def user_state_dir (e : Env) (fs : FS) (app_name app_author version : Option String)
    (roaming use_virtualenv create : Bool) : Except PyError PyValue × FS :=
  firstOf (get_folder e "user_state" app_name app_author version roaming use_virtualenv create fs)

/-- `user_log_dir` (line 191): `_get_folder('user_log', ..., False, ...)[0]`. -/
def user_log_dir (e : Env) (fs : FS) (app_name app_author version : Option String)
    (use_virtualenv create : Bool) : Except PyError PyValue × FS :=
  firstOf (get_folder e "user_log" app_name app_author version false use_virtualenv create fs)

/-- `site_data_dirs` (line 219): the full list from `_get_folder('site_data', ...)`. -/
def site_data_dirs (e : Env) (fs : FS) (app_name app_author version : Option String)
    (use_virtualenv create : Bool) : Except PyError PyValue × FS :=
  allOf (get_folder e "site_data" app_name app_author version false use_virtualenv create fs)

/-- `site_config_dirs` (line 247): the full list from `_get_folder('site_config', ...)`. -/
def site_config_dirs (e : Env) (fs : FS) (app_name app_author version : Option String)
    (use_virtualenv create : Bool) : Except PyError PyValue × FS :=
  allOf (get_folder e "site_config" app_name app_author version false use_virtualenv create fs)

/-- Default of the `create` keyword in the signature of `user_data_dir`
(`dwave_appdirs.py` line 37). -/
def user_data_dir_create_default : Bool := true

/-- Default of `create` in `user_config_dir` (line 73). -/
def user_config_dir_create_default : Bool := true

/-- Default of `create` in `user_cache_dir` (line 105). -/
def user_cache_dir_create_default : Bool := true

/-- Default of `create` in `user_state_dir` (line 133). -/
def user_state_dir_create_default : Bool := true

/-- Default of `create` in `user_log_dir` (line 167). -/
def user_log_dir_create_default : Bool := true

/-- Default of `create` in `site_data_dirs` (line 194). -/
def site_data_dirs_create_default : Bool := false

/-- Default of `create` in `site_config_dirs` (line 222). -/
def site_config_dirs_create_default : Bool := true

end dwave_appdirs

namespace appdirs

open Appdirs

/-- The trailing loop of `_get_folder` in `appdirs.py` (lines 82-93).
It differs from the `dwave_appdirs` loop in two ways: the version test is
Python truthiness (`if version:`) rather than `is not None`, and the
existence check is written `os.path.exists()` with no argument (line 88),
so whenever `create` is truthy the call raises `TypeError` before
creating or returning anything. -/
def finalize (app_name version : Option String) (create : Bool) :
    List String → FS → Except PyError (List String) × FS
  | [], fs => (Except.ok [], fs)
  | path :: rest, fs =>
    match osPathJoinOpt path app_name with
    | Except.error err => (Except.error err, fs)
    | Except.ok fp0 =>
      let final_path := match version with
        | some v => if v = "" then fp0 else osPathJoin fp0 v
        | none => fp0
      if create then (Except.error PyError.typeError, fs)
      else
        match finalize app_name version create rest fs with
        | (Except.error err, fs2) => (Except.error err, fs2)
        | (Except.ok l, fs2) => (Except.ok (final_path :: l), fs2)

/-- `_get_folder` of `appdirs.py` (lines 35-93), flags explicit.  Its
virtualenv short-circuit (lines 36-37) has no `site` restriction and no
category subfolder: the base path is `sys.prefix` itself for every
category. -/
def get_folderWith (fl : PlatFlags) (e : Env) (folder_type : String)
    (app_name app_author version : Option String)
    (roaming use_virtualenv create : Bool) (fs : FS) :
    Except PyError (List String) × FS :=
  let pathsE : Except PyError (List String) :=
    if use_virtualenv && inVirtualenvFolder e then
      Except.ok [e.sysPfx]
    else osBasePaths fl e folder_type app_author roaming
  match pathsE with
  | Except.error err => (Except.error err, fs)
  | Except.ok paths => finalize app_name version create paths fs

/-- `_get_folder` with the flags computed from `sys.platform`. -/
def get_folder (e : Env) (folder_type : String)
    (app_name app_author version : Option String)
    (roaming use_virtualenv create : Bool) (fs : FS) :
    Except PyError (List String) × FS :=
  get_folderWith (detectPlatform e.platform) e folder_type
    app_name app_author version roaming use_virtualenv create fs

/-- `user_data_dir` (line 130): `_get_folder('user_data', ...)[0]`. -/
def user_data_dir (e : Env) (fs : FS) (app_name app_author version : Option String)
    (roaming use_virtualenv create : Bool) : Except PyError PyValue × FS :=
  dwave_appdirs.firstOf
    (get_folder e "user_data" app_name app_author version roaming use_virtualenv create fs)

/-- `user_config_dir` (line 162): `_get_folder('user_config', ...)[0]`. -/
def user_config_dir (e : Env) (fs : FS) (app_name app_author version : Option String)
    (roaming use_virtualenv create : Bool) : Except PyError PyValue × FS :=
  dwave_appdirs.firstOf
    (get_folder e "user_config" app_name app_author version roaming use_virtualenv create fs)

/-- `user_cache_dir` (line 198): `_get_folder('user_cache', ..., False, ...)[0]`. -/
def user_cache_dir (e : Env) (fs : FS) (app_name app_author version : Option String)
    (use_virtualenv create : Bool) : Except PyError PyValue × FS :=
  dwave_appdirs.firstOf
    (get_folder e "user_cache" app_name app_author version false use_virtualenv create fs)

/-- `user_state_dir` (line 232): `_get_folder('user_state', ...)[0]`. -/
def user_state_dir (e : Env) (fs : FS) (app_name app_author version : Option String)
    (roaming use_virtualenv create : Bool) : Except PyError PyValue × FS :=
  dwave_appdirs.firstOf
    (get_folder e "user_state" app_name app_author version roaming use_virtualenv create fs)

/-- `user_log_dir` (line 267): `_get_folder('user_log', ..., False, ...)`
with NO `[0]` — unlike the other four single-valued accessors this one
returns the resolver's list unchanged. -/
def user_log_dir (e : Env) (fs : FS) (app_name app_author version : Option String)
    (use_virtualenv create : Bool) : Except PyError PyValue × FS :=
  dwave_appdirs.allOf
    (get_folder e "user_log" app_name app_author version false use_virtualenv create fs)

/-- `site_data_dir` (line 301): the full list from `_get_folder('site_data', ...)`. -/
def site_data_dir (e : Env) (fs : FS) (app_name app_author version : Option String)
    (use_virtualenv create : Bool) : Except PyError PyValue × FS :=
  dwave_appdirs.allOf
    (get_folder e "site_data" app_name app_author version false use_virtualenv create fs)

/-- `site_config_dir` (line 334): the full list from `_get_folder('site_config', ...)`. -/
def site_config_dir (e : Env) (fs : FS) (app_name app_author version : Option String)
    (use_virtualenv create : Bool) : Except PyError PyValue × FS :=
  dwave_appdirs.allOf
    (get_folder e "site_config" app_name app_author version false use_virtualenv create fs)

/-- Default of `create` in `user_data_dir` (`appdirs.py` line 96). -/
def user_data_dir_create_default : Bool := true

/-- Default of `create` in `user_config_dir` (line 133). -/
def user_config_dir_create_default : Bool := true

/-- Default of `create` in `user_cache_dir` (line 165). -/
def user_cache_dir_create_default : Bool := true

/-- Default of `create` in `user_state_dir` (line 201). -/
def user_state_dir_create_default : Bool := true

/-- Default of `create` in `user_log_dir` (line 235). -/
def user_log_dir_create_default : Bool := true

/-- Default of `create` in `site_data_dir` (line 270). -/
def site_data_dir_create_default : Bool := false

/-- Default of `create` in `site_config_dir` (line 304). -/
def site_config_dir_create_default : Bool := true

end appdirs

namespace Appdirs

/-- A concrete Linux interpreter state outside any virtualenv, with no
XDG environment variables set. -/
def envL : Env where
  platform := "linux"
  sysPfx := "/venv"
  hasRealPfx := false
  hasBasePfx := false
  basePfx := ""
  home := "/home/user"
  getenv := fun _ => none
  shGetFolderPathW := fun _ => ""
  getShortPathNameW := fun _ => none
  normpath := fun s => s

/-- `envL` with `XDG_DATA_DIRS=/a:/b`. -/
def envXdgData : Env :=
  { envL with getenv := fun k => if k = "XDG_DATA_DIRS" then some "/a:/b" else none }

/-- `envL` with `XDG_CONFIG_DIRS=/a:/b`. -/
def envXdgConfig : Env :=
  { envL with getenv := fun k => if k = "XDG_CONFIG_DIRS" then some "/a:/b" else none }

/-- A concrete Windows interpreter state outside any virtualenv, with a
shell-folder query returning a distinct base path per CSIDL constant
(35 = common/site appdata, 26 = roaming appdata, 28 = local appdata). -/
def envWin : Env :=
  { envL with
    platform := "win32"
    shGetFolderPathW := fun c =>
      if c = 35 then "C:/ProgramData"
      else if c = 26 then "C:/Users/u/AppData/Roaming"
      else "C:/Users/u/AppData/Local" }

/-- A concrete Linux interpreter state inside a virtualenv rooted at
`/venv` (`sys.real_prefix` present). -/
def envVenv : Env :=
  { envL with hasRealPfx := true }

/-- A concrete interpreter state on FreeBSD — a platform that is neither
Windows, nor macOS, nor Linux. -/
def envFbsd : Env :=
  { envL with platform := "freebsd8" }

end Appdirs

namespace Appdirs

/-- `os.makedirs` leaves the target path existing. -/
theorem makedirs_self_mem {fs : FS} {p : String} {fs2 : FS}
    (h : makedirs fs p = Except.ok fs2) : pathExists fs2 p = true := by
  unfold makedirs at h
  split at h
  · exact absurd h (by simp)
  · split at h
    · exact absurd h (by simp)
    · injection h with h2
      subst h2
      simp [pathExists]

/-- `os.makedirs` never removes an existing path. -/
theorem makedirs_mono {fs : FS} {p q : String} {fs2 : FS}
    (h : makedirs fs p = Except.ok fs2) (hq : pathExists fs q = true) :
    pathExists fs2 q = true := by
  unfold makedirs at h
  split at h
  · exact absurd h (by simp)
  · split at h
    · exact absurd h (by simp)
    · injection h with h2
      subst h2
      simp only [pathExists, decide_eq_true_eq, List.mem_append] at hq ⊢
      exact Or.inl (Or.inl hq)

end Appdirs

namespace dwave_appdirs

open Appdirs

/-- With `create=False` the `dwave_appdirs` loop leaves the filesystem
untouched, whatever it returns. -/
theorem finalize_false_snd (an v : Option String) (paths : List String) (fs : FS) :
    (finalize an v false paths fs).2 = fs := by
  induction paths with
  | nil => rfl
  | cons p rest ih =>
    cases an with
    | none => rfl
    | some a =>
      simp only [finalize, osPathJoinOpt, Bool.false_and, Bool.false_eq_true, if_false]
      cases hres : finalize (some a) v false rest fs with
      | mk r fs2 =>
        have h2 : fs2 = fs := by
          have := ih
          rw [hres] at this
          exact this
        cases r <;> simp [h2]

/-- With `create=False` and no version, the `dwave_appdirs` loop returns
exactly the base paths with the app name joined, in order, and the
filesystem unchanged. -/
theorem finalize_nocreate_map (an : String) (paths : List String) (fs : FS) :
    finalize (some an) none false paths fs
      = (Except.ok (paths.map (fun p => osPathJoin p an)), fs) := by
  induction paths with
  | nil => rfl
  | cons p rest ih =>
    simp only [finalize, osPathJoinOpt, Bool.false_and, Bool.false_eq_true, if_false, ih,
      List.map_cons]

/-- The `dwave_appdirs` loop never removes an existing path. -/
theorem finalize_mono {an v : Option String} {create : Bool} {q : String} :
    ∀ (paths : List String) (fs : FS), pathExists fs q = true →
      pathExists (finalize an v create paths fs).2 q = true := by
  intro paths
  induction paths with
  | nil => intro fs hq; exact hq
  | cons p rest ih =>
    intro fs hq
    cases an with
    | none => exact hq
    | some a =>
      simp only [finalize, osPathJoinOpt]
      split
      · exact hq
      · next fs1 hok =>
        have h1 : pathExists fs1 q = true := by
          split at hok
          · exact makedirs_mono hok hq
          · injection hok with h2; rw [← h2]; exact hq
        cases hres : finalize (some a) v create rest fs1 with
        | mk r fs2 =>
          have h2 := ih fs1 h1
          rw [hres] at h2
          cases r <;> exact h2

/-- The final path built by one iteration of the loop from a base path,
app name and version. -/
def finalPathOf (b a : String) (v : Option String) : String :=
  match v with
  | some vv => osPathJoin (osPathJoin b a) vv
  | none => osPathJoin b a

/-- One-step unfolding of the loop on a cons cell with a present app
name, phrased with `finalPathOf`. -/
theorem finalize_cons (a : String) (v : Option String) (create : Bool)
    (b : String) (rest : List String) (fs : FS) :
    finalize (some a) v create (b :: rest) fs
      = (match (if create && !pathExists fs (finalPathOf b a v)
                then makedirs fs (finalPathOf b a v) else Except.ok fs) with
         | Except.error err => (Except.error err, fs)
         | Except.ok fs1 =>
           match finalize (some a) v create rest fs1 with
           | (Except.error err, fs2) => (Except.error err, fs2)
           | (Except.ok l, fs2) => (Except.ok (finalPathOf b a v :: l), fs2)) := by
  cases v <;> rfl

/-- With `create=True`, every path the `dwave_appdirs` loop returns
exists in the resulting filesystem. -/
theorem finalize_true_mem {an v : Option String} :
    ∀ (paths : List String) (fs : FS) (l : List String) (fs2 : FS),
      finalize an v true paths fs = (Except.ok l, fs2) →
      ∀ p ∈ l, pathExists fs2 p = true := by
  intro paths
  induction paths with
  | nil =>
    intro fs l fs2 h p hp
    injection h with h1 h2
    injection h1 with h1
    subst h1
    exact absurd hp (by simp)
  | cons b rest ih =>
    intro fs l fs2 h p hp
    cases an with
    | none => exact absurd h (by simp [finalize, osPathJoinOpt])
    | some a =>
      rw [finalize_cons] at h
      revert h
      split
      · next herr => intro h; exact absurd h (by simp)
      · next fs1 hok =>
        intro h
        revert h
        cases hres : finalize (some a) v true rest fs1 with
        | mk r fs2b =>
          cases r with
          | error err => intro h; exact absurd h (by simp)
          | ok lrest =>
            intro h
            injection h with h1 h2
            injection h1 with h1
            subst h1
            subst h2
            have hbase : pathExists fs1 (finalPathOf b a v) = true := by
              split at hok
              · exact makedirs_self_mem hok
              · next hcond =>
                injection hok with h3
                rw [← h3]
                simp at hcond
                exact hcond
            rcases List.mem_cons.mp hp with rfl | htail
            · have := @finalize_mono (some a) v true (finalPathOf b a v) rest fs1 hbase
              rw [hres] at this
              exact this
            · exact ih fs1 lrest fs2b hres p htail

end dwave_appdirs

namespace appdirs

open Appdirs

/-- With `create=False` the `appdirs` loop leaves the filesystem
untouched, whatever it returns. -/
theorem finalize_keeps_fs (an v : Option String) (paths : List String) (fs : FS) :
    (finalize an v false paths fs).2 = fs := by
  induction paths with
  | nil => rfl
  | cons p rest ih =>
    cases an with
    | none => rfl
    | some a =>
      simp only [finalize, osPathJoinOpt, Bool.false_eq_true, if_false]
      cases hres : finalize (some a) v false rest fs with
      | mk r fs2 =>
        have h2 : fs2 = fs := by
          have := ih
          rw [hres] at this
          exact this
        cases r <;> simp [h2]

/-- With `create=False` and no version, the `appdirs` loop returns
exactly the base paths with the app name joined, in order. -/
theorem finalize_nocreate_eq (an : String) (paths : List String) (fs : FS) :
    finalize (some an) none false paths fs
      = (Except.ok (paths.map (fun p => osPathJoin p an)), fs) := by
  induction paths with
  | nil => rfl
  | cons p rest ih =>
    simp only [finalize, osPathJoinOpt, Bool.false_eq_true, if_false, ih, List.map_cons]

end appdirs


namespace Appdirs

/-- The missing-author message can never coincide with the
unsupported-platform message, whatever the platform string (their first
characters differ). -/
theorem author_msg_ne (e : Env) :
    ¬("app_author must be provided on Windows"
      = "Unsupported operating system: " ++ e.platform) := by
  intro hcontra
  have h2 : ("app_author must be provided on Windows").data.head?
      = ("Unsupported operating system: " ++ e.platform).data.head? := by
    rw [hcontra]
  have h3 : ("Unsupported operating system: " ++ e.platform).data.head? = some 'U' := rfl
  rw [h3] at h2
  exact absurd h2 (by decide)

/-- Platform detection always sets one of the three flags: everything
that is not `win32` or `darwin` counts as Linux. -/
theorem detect_some_flag (p : String) :
    ((detectPlatform p).windows || (detectPlatform p).macosx
      || (detectPlatform p).linux) = true := by
  unfold detectPlatform
  split_ifs <;> rfl

/-- Whenever some platform flag is set, base-path selection never yields
the unsupported-platform error. -/
theorem osBasePaths_no_unsupported :
    ∀ (fl : PlatFlags) (e : Env) (aa : Option String) (r : Bool) (ft : String),
      (fl.windows || fl.macosx || fl.linux) = true →
      isUnsupportedError e (osBasePaths fl e ft aa r) = false := by
  intro fl e aa r ft h
  rcases fl with ⟨w, m, l⟩
  cases w with
  | true =>
    by_cases h1 : ft ∈ ["user_data", "user_config", "user_state"] <;>
      by_cases h2 : ft = "user_cache" <;>
        by_cases h3 : ft = "user_logs" <;>
          cases aa <;>
            simp [osBasePaths, isUnsupportedError, Except.map, getWinFolder, h1, h2, h3] <;>
            exact author_msg_ne e
  | false =>
    cases m with
    | true =>
      by_cases h1 : ft ∈ ["user_data", "user_config", "user_state"] <;>
        by_cases h2 : ft = "user_cache" <;>
          by_cases h3 : ft = "user_log" <;>
            simp [osBasePaths, isUnsupportedError, h1, h2, h3]
    | false =>
      cases l with
      | true =>
        by_cases h1 : ft = "user_data" <;>
          by_cases h2 : ft = "user_config" <;>
            by_cases h3 : ft = "user_state" <;>
              by_cases h4 : ft = "user_cache" <;>
                by_cases h5 : ft = "site_data" <;>
                  simp [osBasePaths, isUnsupportedError, h1, h2, h3, h4, h5]
      | false => simp at h

/-- On the Linux flags, the `site_data` base paths are the split entries
of `XDG_DATA_DIRS` when that variable is set. -/
theorem osBasePaths_linux_site_data (e : Env) (aa : Option String) (r : Bool) (val : String)
    (henv : e.getenv "XDG_DATA_DIRS" = some val) :
    osBasePaths (PlatFlags.mk false false true) e "site_data" aa r
      = Except.ok ((strSplitOnChar ':' val).map (fun x => expanduser e (rstripSep x))) := by
  unfold osBasePaths getenvD
  rw [henv]
  rfl

end Appdirs

namespace dwave_appdirs

open Appdirs

/-- The trailing loop can fail (`TypeError` on a missing app name,
filesystem errors from `os.makedirs`), but never with the
unsupported-platform error. -/
theorem finalize_not_unsupported (e : Env) (an v : Option String) (c : Bool) :
    ∀ (paths : List String) (fs : FS),
      isUnsupportedError e (finalize an v c paths fs).1 = false := by
  intro paths
  induction paths with
  | nil => intro fs; rfl
  | cons b rest ih =>
    intro fs
    cases an with
    | none => rfl
    | some a =>
      rw [finalize_cons]
      split
      · next err heq =>
        split at heq
        · unfold makedirs at heq
          split at heq
          · injection heq with h1; subst h1; rfl
          · split at heq
            · injection heq with h1; subst h1; rfl
            · exact absurd heq (by simp)
        · exact absurd heq (by simp)
      · next fs1 heq =>
        have h2 := ih fs1
        cases hres : finalize (some a) v c rest fs1 with
        | mk rr fs2 =>
          rw [hres] at h2
          cases rr with
          | error err => exact h2
          | ok l => rfl

/-- Running on the flags produced by platform detection, the resolver
never returns the unsupported-platform error, for any platform string
and any input. -/
theorem get_folder_detect_no_unsupported :
    ∀ (p : String) (e : Env) (ft : String) (an aa v : Option String)
      (r uv c : Bool) (fs : FS),
      isUnsupportedError e
        ((get_folderWith (detectPlatform p) e ft an aa v r uv c fs).1) = false := by
  intro p e ft an aa v r uv c fs
  unfold get_folderWith
  split
  · cases hg : (strSplitOnChar '_' ft).get? 1 with
    | none => simp only [hg]; rfl
    | some sub =>
      simp only [hg]
      exact finalize_not_unsupported e an v c [osPathJoin e.sysPfx sub] fs
  · have h2 := osBasePaths_no_unsupported (detectPlatform p) e aa r ft (detect_some_flag p)
    cases hb : osBasePaths (detectPlatform p) e ft aa r with
    | error err =>
      rw [hb] at h2
      simp only [hb]
      exact h2
    | ok paths =>
      simp only [hb]
      exact finalize_not_unsupported e an v c paths fs

end dwave_appdirs

section Claims

open Appdirs

/-- C1: with `create=False` neither resolver mutates the filesystem, for
any category and input; with `create=True` every path the
`dwave_appdirs` resolver returns exists in the resulting filesystem; but
the `appdirs` resolver, whose loop calls `os.path.exists()` with no
argument, raises `TypeError` on `create=True` (evaluated here at a
concrete Linux input) instead of creating and returning the
directories. -/
theorem claim_c1_create_effects :
    (∀ (e : Env) (fs : FS) (ft : String) (an aa v : Option String) (r uv : Bool),
      (dwave_appdirs.get_folder e ft an aa v r uv false fs).2 = fs)
  ∧ (∀ (e : Env) (fs : FS) (ft : String) (an aa v : Option String) (r uv : Bool),
      (appdirs.get_folder e ft an aa v r uv false fs).2 = fs)
  ∧ (∀ (e : Env) (fs : FS) (ft : String) (an aa v : Option String) (r uv : Bool)
      (l : List String) (fs2 : FS),
      dwave_appdirs.get_folder e ft an aa v r uv true fs = (Except.ok l, fs2) →
      ∀ p ∈ l, pathExists fs2 p = true)
  ∧ appdirs.get_folder envL "user_data" (some "app") none none false false true []
      = (Except.error PyError.typeError, []) := by
  refine ⟨?_, ?_, ?_, by decide⟩
  · intro e fs ft an aa v r uv
    simp only [dwave_appdirs.get_folder, dwave_appdirs.get_folderWith]
    split
    · rfl
    · exact dwave_appdirs.finalize_false_snd an v _ fs
  · intro e fs ft an aa v r uv
    simp only [appdirs.get_folder, appdirs.get_folderWith]
    split
    · rfl
    · exact appdirs.finalize_keeps_fs an v _ fs
  · intro e fs ft an aa v r uv l fs2 h p hp
    simp only [dwave_appdirs.get_folder, dwave_appdirs.get_folderWith] at h
    revert h
    split
    · intro h; exact absurd h (by simp)
    · intro h; exact dwave_appdirs.finalize_true_mem _ fs l fs2 h p hp

/-- Witness for C1: the create-postcondition conjunct applied at a
concrete Linux input. -/
theorem claim_c1_create_effects_witness :
    pathExists (["/home", "/home/user", "/home/user/.local", "/home/user/.local/share",
      "/home/user/.local/share/app"] : FS) "/home/user/.local/share/app" = true := by
  exact claim_c1_create_effects.2.2.1 envL [] "user_data" (some "app") none none false false
    ["/home/user/.local/share/app"]
    ["/home", "/home/user", "/home/user/.local", "/home/user/.local/share",
     "/home/user/.local/share/app"]
    (by decide) "/home/user/.local/share/app" (by decide)

/-- C2 counterexample: inside a virtualenv rooted at `/venv`, the
`appdirs` resolver returns `/venv/app` for `user_data` — not the claimed
`/venv/data/app` — and the `site_data` category does not ignore the
flag there: its result with `use_virtualenv=True` differs from the one
with `use_virtualenv=False`. -/
theorem claim_c2_counterexample :
    appdirs.get_folder envVenv "user_data" (some "app") none none false true false []
      = (Except.ok ["/venv/app"], [])
  ∧ decide (("/venv/app" : String) = "/venv/data/app") = false
  ∧ decide (appdirs.get_folder envVenv "site_data" (some "app") none none false true false []
      = appdirs.get_folder envVenv "site_data" (some "app") none none false false false [])
      = false := by
  refine ⟨by decide, by decide, by decide⟩

/-- C2 amended: the claimed behaviour holds for the `dwave_appdirs`
resolver — inside an isolated environment each user category resolves to
`{sys.prefix}/{kind}/{app_name}` and the two site categories are
unaffected by the flag — while the `appdirs` resolver short-circuits
every category (site ones included) to `{sys.prefix}/{app_name}` with no
kind subdirectory. -/
theorem claim_c2_amended :
    (∀ (e : Env) (fs : FS) (an : String) (aa : Option String) (r : Bool) (kind : String),
      kind ∈ ["data", "config", "state", "cache", "log"] →
      inVirtualenvFolder e = true →
      dwave_appdirs.get_folder e ("user_" ++ kind) (some an) aa none r true false fs
        = (Except.ok [osPathJoin (osPathJoin e.sysPfx kind) an], fs))
  ∧ (∀ (e : Env) (fs : FS) (an aa v : Option String) (r c : Bool) (ft : String),
      ft ∈ ["site_data", "site_config"] →
      dwave_appdirs.get_folder e ft an aa v r true c fs
        = dwave_appdirs.get_folder e ft an aa v r false c fs)
  ∧ (∀ (e : Env) (fs : FS) (an : String) (aa : Option String) (r : Bool) (ft : String),
      inVirtualenvFolder e = true →
      appdirs.get_folder e ft (some an) aa none r true false fs
        = (Except.ok [osPathJoin e.sysPfx an], fs)) := by
  refine ⟨?_, ?_, ?_⟩
  · intro e fs an aa r kind hk hv
    fin_cases hk <;>
      (simp only [dwave_appdirs.get_folder, dwave_appdirs.get_folderWith, hv]; rfl)
  · intro e fs an aa v r c ft hft
    fin_cases hft <;> rfl
  · intro e fs an aa r ft hv
    simp only [appdirs.get_folder, appdirs.get_folderWith, hv]
    rfl

/-- Witness for C2 (amended): all three conjuncts applied inside the
concrete virtualenv environment. -/
theorem claim_c2_amended_witness :
    dwave_appdirs.get_folder envVenv "user_data" (some "app") none none false true false []
      = (Except.ok [osPathJoin (osPathJoin envVenv.sysPfx "data") "app"], [])
  ∧ dwave_appdirs.get_folder envVenv "site_data" (some "app") none none false true false []
      = dwave_appdirs.get_folder envVenv "site_data" (some "app") none none false false false []
  ∧ appdirs.get_folder envVenv "user_data" (some "app") none none false true false []
      = (Except.ok [osPathJoin envVenv.sysPfx "app"], []) :=
  ⟨claim_c2_amended.1 envVenv [] "app" none false "data" (by decide) rfl,
   claim_c2_amended.2.1 envVenv [] (some "app") none none false false "site_data" (by decide),
   claim_c2_amended.2.2 envVenv [] "app" none false "user_data" rfl⟩

/-- C3: on Windows (outside a virtualenv) `user_cache` resolves under the
non-roaming local app-data folder with `Caches` appended, as claimed;
but `user_log` — because the dispatch tests for the tag `user_logs`
while the accessor passes `user_log` — falls into the site branch and
resolves to the machine-wide common app-data folder, identical to
`site_data`, in both modules. -/
theorem claim_c3_windows_cache_log :
    dwave_appdirs.get_folder envWin "user_cache" (some "app") (some "acme") none false false false []
      = (Except.ok ["C:/Users/u/AppData/Local/acme/Caches/app"], [])
  ∧ dwave_appdirs.get_folder envWin "user_log" (some "app") (some "acme") none false false false []
      = (Except.ok ["C:/ProgramData/acme/app"], [])
  ∧ dwave_appdirs.get_folder envWin "user_log" (some "app") (some "acme") none false false false []
      = dwave_appdirs.get_folder envWin "site_data" (some "app") (some "acme") none false false false []
  ∧ appdirs.get_folder envWin "user_log" (some "app") (some "acme") none false false false []
      = (Except.ok ["C:/ProgramData/acme/app"], []) := by
  refine ⟨by decide, by decide, by decide, by decide⟩

/-- C4 amended: the resolver's trailing branch does raise the
unsupported-platform error whenever all three platform flags are false,
but that state is unreachable — platform detection sets a flag for every
platform string (everything other than `win32` and `darwin` counts as
Linux), and whenever some flag is set the base-path selection never
produces the unsupported-platform error. -/
theorem claim_c4_amended :
    (∀ (e : Env) (fs : FS) (ft : String) (an aa v : Option String) (r c : Bool),
      (dwave_appdirs.get_folderWith (PlatFlags.mk false false false) e ft an aa v r false c fs).1
        = Except.error (PyError.runtimeError ("Unsupported operating system: " ++ e.platform)))
  ∧ (∀ p : String,
      ((detectPlatform p).windows || (detectPlatform p).macosx || (detectPlatform p).linux) = true)
  ∧ (∀ (p : String) (e : Env) (ft : String) (an aa v : Option String)
      (r uv c : Bool) (fs : FS),
      isUnsupportedError e
        ((dwave_appdirs.get_folderWith (detectPlatform p) e ft an aa v r uv c fs).1) = false) := by
  refine ⟨?_, detect_some_flag, dwave_appdirs.get_folder_detect_no_unsupported⟩
  intro e fs ft an aa v r c
  simp only [dwave_appdirs.get_folderWith, Bool.false_and, Bool.and_false,
    Bool.false_eq_true, if_false]
  rfl

/-- C4 counterexample: on `sys.platform = "freebsd8"` — a platform that
matches none of the three supported conventions — the catch-all
detection labels the system Linux, and the resolver succeeds with the
XDG path instead of raising the unsupported-platform error. -/
theorem claim_c4_counterexample :
    detectPlatform "freebsd8" = PlatFlags.mk false false true
  ∧ dwave_appdirs.get_folder envFbsd "user_data" (some "app") none none false false false []
      = (Except.ok ["/home/user/.local/share/app"], [])
  ∧ isUnsupportedError envFbsd
      ((dwave_appdirs.get_folder envFbsd "user_data" (some "app") none none false false false
        []).1) = false := by
  refine ⟨by decide, by decide, by decide⟩

/-- Witness for C4 (amended): the no-error conjunct applied to a
concrete FreeBSD state and input. -/
theorem claim_c4_amended_witness :
    isUnsupportedError envFbsd
      ((dwave_appdirs.get_folderWith (detectPlatform "freebsd8") envFbsd "user_data"
        (some "app") none none false false false []).1) = false :=
  claim_c4_amended.2.2 "freebsd8" envFbsd "user_data" (some "app") none none false false false []

/-- C5 counterexample: the unrecognized category `bogus` is not rejected
with any error — on Linux both resolvers silently return the
`site_config` (`/etc/xdg`) path for it. -/
theorem claim_c5_counterexample :
    dwave_appdirs.get_folder envL "bogus" (some "app") none none false false false []
      = (Except.ok ["/etc/xdg/app"], [])
  ∧ appdirs.get_folder envL "bogus" (some "app") none none false false false []
      = (Except.ok ["/etc/xdg/app"], []) := by
  refine ⟨by decide, by decide⟩

/-- C5 amended: there is no InvalidCategory error.  An unrecognized
category tag is silently routed to the trailing `else` of the platform
dispatch — on Linux it resolves exactly like `site_config`, on Windows
exactly like the site branch (`site_data`) — and under the virtualenv
short-circuit a tag without an underscore raises `IndexError`, not an
invalid-category error. -/
theorem claim_c5_amended :
    (∀ (e : Env) (fs : FS) (an aa v : Option String) (r c : Bool),
      dwave_appdirs.get_folderWith (PlatFlags.mk false false true) e "bogus" an aa v r false c fs
        = dwave_appdirs.get_folderWith (PlatFlags.mk false false true) e "site_config" an aa v r false c fs)
  ∧ (∀ (e : Env) (fs : FS) (an aa v : Option String) (r c : Bool),
      dwave_appdirs.get_folderWith (PlatFlags.mk true false false) e "bogus" an aa v r false c fs
        = dwave_appdirs.get_folderWith (PlatFlags.mk true false false) e "site_data" an aa v r false c fs)
  ∧ (∀ (e : Env) (fs : FS) (an aa v : Option String) (r c : Bool),
      appdirs.get_folderWith (PlatFlags.mk false false true) e "bogus" an aa v r false c fs
        = appdirs.get_folderWith (PlatFlags.mk false false true) e "site_config" an aa v r false c fs)
  ∧ dwave_appdirs.get_folder envVenv "bogus" (some "app") none none false true false []
      = (Except.error PyError.indexError, []) := by
  refine ⟨?_, ?_, ?_, by decide⟩
  · intro e fs an aa v r c; rfl
  · intro e fs an aa v r c; rfl
  · intro e fs an aa v r c; rfl

/-- C6: on Linux with `XDG_DATA_DIRS` set, `site_data_dirs` with
`create=False` returns exactly the colon-separated entries in
left-to-right order, each with the app name joined (the flag
`use_virtualenv=True` notwithstanding, since `site` categories skip the
virtualenv branch). -/
theorem claim_c6_site_data_order (e : Env) (fs : FS) (an val : String)
    (hplat : detectPlatform e.platform = PlatFlags.mk false false true)
    (henv : e.getenv "XDG_DATA_DIRS" = some val) :
    dwave_appdirs.site_data_dirs e fs (some an) none none true false
      = (Except.ok (PyValue.strList ((strSplitOnChar ':' val).map
          (fun x => osPathJoin (expanduser e (rstripSep x)) an))), fs) := by
  have hbase := osBasePaths_linux_site_data e none false val henv
  unfold dwave_appdirs.site_data_dirs dwave_appdirs.get_folder dwave_appdirs.get_folderWith
  rw [hplat, hbase]
  show dwave_appdirs.allOf (dwave_appdirs.finalize (some an) none false
      ((strSplitOnChar ':' val).map (fun x => expanduser e (rstripSep x))) fs) = _
  rw [dwave_appdirs.finalize_nocreate_map]
  unfold dwave_appdirs.allOf
  simp [List.map_map, Function.comp]

/-- Witness for C6: with `XDG_DATA_DIRS=/a:/b` the result is exactly
`["/a/app", "/b/app"]`, in order. -/
theorem claim_c6_site_data_order_witness :
    dwave_appdirs.site_data_dirs envXdgData [] (some "app") none none true false
      = (Except.ok (PyValue.strList ["/a/app", "/b/app"]), []) := by
  have h := claim_c6_site_data_order envXdgData [] "app" "/a:/b" (by decide) rfl
  rw [h]
  decide

/-- C7: calling an accessor documented as accepting an absent `app_name`
with `app_name=None` does not return the base system directory — it
raises `TypeError` from `os.path.join(path, None)`, in both modules
(evaluated at a concrete Linux input with `create=False`). -/
theorem claim_c7_none_app_name :
    dwave_appdirs.user_cache_dir envL [] none none none true false
      = (Except.error PyError.typeError, [])
  ∧ appdirs.user_cache_dir envL [] none none none true false
      = (Except.error PyError.typeError, [])
  ∧ dwave_appdirs.site_data_dirs envL [] none none none true false
      = (Except.error PyError.typeError, [])
  ∧ dwave_appdirs.user_log_dir envL [] none none none true false
      = (Except.error PyError.typeError, []) := by
  refine ⟨by decide, by decide, by decide, by decide⟩

/-- C8: `dwave_appdirs.user_log_dir` unwraps the resolver's result to a
single path string, but `appdirs.user_log_dir` (which lacks the `[0]`)
returns the resolver's full list — here a two-element list, since on
Linux `user_log` falls into the multi-valued `XDG_CONFIG_DIRS` branch. -/
theorem claim_c8_accessor_shapes :
    appdirs.user_log_dir envXdgConfig [] (some "app") none none true false
      = (Except.ok (PyValue.strList ["/a/app", "/b/app"]), [])
  ∧ dwave_appdirs.user_log_dir envXdgConfig [] (some "app") none none true false
      = (Except.ok (PyValue.str "/a/app"), []) := by
  refine ⟨by decide, by decide⟩

/-- C9 counterexample: the `create` flag of `site_config_dirs`
(`dwave_appdirs.py` line 222) and of `site_config_dir` (`appdirs.py`
line 304) defaults to `True`, not `False`. -/
theorem claim_c9_counterexample :
    dwave_appdirs.site_config_dirs_create_default = true
  ∧ appdirs.site_config_dir_create_default = true := ⟨rfl, rfl⟩

/-- C9 amended: `create` defaults to `True` for all five per-user
accessors and also for `site_config_dirs`/`site_config_dir`; it defaults
to `False` only for `site_data_dirs`/`site_data_dir`. -/
theorem claim_c9_amended :
    dwave_appdirs.user_data_dir_create_default = true
  ∧ dwave_appdirs.user_config_dir_create_default = true
  ∧ dwave_appdirs.user_state_dir_create_default = true
  ∧ dwave_appdirs.user_cache_dir_create_default = true
  ∧ dwave_appdirs.user_log_dir_create_default = true
  ∧ dwave_appdirs.site_data_dirs_create_default = false
  ∧ dwave_appdirs.site_config_dirs_create_default = true
  ∧ appdirs.user_data_dir_create_default = true
  ∧ appdirs.user_config_dir_create_default = true
  ∧ appdirs.user_state_dir_create_default = true
  ∧ appdirs.user_cache_dir_create_default = true
  ∧ appdirs.user_log_dir_create_default = true
  ∧ appdirs.site_data_dir_create_default = false
  ∧ appdirs.site_config_dir_create_default = true := by decide

/-- C10: when the virtualenv detector answers false, both resolvers give
identical results with `use_virtualenv=True` and `use_virtualenv=False`,
for every category and input. -/
theorem claim_c10_flag_no_effect (e : Env) (hv : inVirtualenvFolder e = false)
    (fs : FS) (ft : String) (an aa v : Option String) (r c : Bool) :
    dwave_appdirs.get_folder e ft an aa v r true c fs
      = dwave_appdirs.get_folder e ft an aa v r false c fs
  ∧ appdirs.get_folder e ft an aa v r true c fs
      = appdirs.get_folder e ft an aa v r false c fs := by
  constructor
  · simp [dwave_appdirs.get_folder, dwave_appdirs.get_folderWith, hv]
  · simp [appdirs.get_folder, appdirs.get_folderWith, hv]

/-- Witness for C10: applied at a concrete Linux environment outside any
virtualenv. -/
theorem claim_c10_flag_no_effect_witness :
    dwave_appdirs.get_folder envL "user_data" (some "app") none none false true false []
      = dwave_appdirs.get_folder envL "user_data" (some "app") none none false false false []
  ∧ appdirs.get_folder envL "user_data" (some "app") none none false true false []
      = appdirs.get_folder envL "user_data" (some "app") none none false false false [] :=
  claim_c10_flag_no_effect envL rfl [] "user_data" (some "app") none none false false

end Claims
